import Mathlib

/-!
Shallow embedding of the `typescript-review` domain model
(`Currency`, `Money`, `Customer`, `DateTime`) and verification of its
specification claims.

Modelling conventions:
* TypeScript `number` is modelled as `ℚ` (the claims concern sign tests,
  addition and multiplication, not floating-point rounding).
* A `throw new Error(msg)` is modelled as `Except.error msg`; a normal
  return as `Except.ok`.  Template-literal payloads `${x}` for numbers are
  rendered with `toString`.
* JS `Date` instants are modelled as `Int` epoch milliseconds; an invalid
  `Date` (`NaN` time value) is `Option.none`.
-/

namespace TSReview

/-- Decidable equality for `Except`, so concrete runs of the embedded
operations can be checked by `decide`. -/
instance {ε α : Type} [DecidableEq ε] [DecidableEq α] : DecidableEq (Except ε α) := fun a b =>
  match a, b with
  | .error e, .error e' => if h : e = e' then .isTrue (by rw [h]) else .isFalse (by simp [h])
  | .ok x, .ok y => if h : x = y then .isTrue (by rw [h]) else .isFalse (by simp [h])
  | .error _, .ok _ => .isFalse (by simp)
  | .ok _, .error _ => .isFalse (by simp)

/-- Embedding of `Currency` (src/src/shared/domain/model/currency.ts).
The class stores a `_code` field; the `code` getter returns it. -/
structure Currency where
  code : String
  deriving DecidableEq, Repr

/-- Embedding of the `Currency` constructor.  At runtime the constructor
body is only `this._code = code;` — the three-uppercase-letter constraint
`CurrencyCode` is a compile-time-only template-literal type, erased before
execution, so any string is stored verbatim and construction never fails. -/
def mkCurrency (code : String) : Currency := ⟨code⟩

/-- Modelled from the spec: the runtime validation predicate the spec
requires of `Currency` construction (length exactly 3, every character an
uppercase ASCII letter A–Z).  The source contains no runtime counterpart:
the constraint exists only as the erased `CurrencyCode` type. -/
def specValidCurrencyCode (code : String) : Bool :=
  code.data.length == 3 && code.data.all (fun c => 'A' ≤ c && c ≤ 'Z')

/-- Embedding of `Money` (src/src/shared/domain/model/money.ts):
fields `_amount` and `_currency`, exposed by the `amount` and `currency`
getters. -/
structure Money where
  amount : ℚ
  currency : Currency
  deriving DecidableEq, Repr

/-- Embedding of the `Money` constructor:
`if (amount < 0) throw new Error(`Amount cannot be negative: ${amount}`);`
then the fields are assigned. -/
def mkMoney (amount : ℚ) (currency : Currency) : Except String Money :=
  if amount < 0 then .error ("Amount cannot be negative: " ++ toString amount)
  else .ok ⟨amount, currency⟩

/-- Embedding of `Money.add`: throws on a currency-code mismatch, otherwise
returns `new Money(this._amount + other.amount, this._currency)` (the
constructor re-checks non-negativity). -/
def Money.add (self other : Money) : Except String Money :=
  if self.currency.code ≠ other.currency.code then
    .error ("Cannot add amounts with different currencies: "
      ++ self.currency.code ++ " and " ++ other.currency.code)
  else mkMoney (self.amount + other.amount) self.currency

/-- Embedding of `Money.multiply`: throws on a negative factor, otherwise
returns `new Money(this._amount * factor, this._currency)`. -/
def Money.multiply (self : Money) (factor : ℚ) : Except String Money :=
  if factor < 0 then .error ("Factor cannot be negative: " ++ toString factor)
  else mkMoney (self.amount * factor) self.currency

/-- Embedding of `Customer` (src/src/crm/domain/model/customer.ts):
fields `_id`, `_name` (readonly) and the mutable `_lastOrderPrice`
(`Money | null`, modelled as `Option Money`). -/
structure Customer where
  id : String
  name : String
  lastOrderPrice : Option Money
  deriving DecidableEq, Repr

/-- ECMA-262 WhiteSpace / LineTerminator characters removed by
`String.prototype.trim` (the common ones: space, tab, LF, VT, FF, CR,
NBSP, and the Unicode space separators actually reachable in practice). -/
def jsWhitespace (c : Char) : Bool :=
  c = ' ' || c = '\t' || c = '\n' || c = '\u000b' || c = '\u000c' || c = '\r'
    || c = '\u00a0' || c = '\u2028' || c = '\u2029' || c = '\ufeff'

/-- Embedding of JS `String.prototype.trim`: removes leading and trailing
whitespace characters. -/
def jsTrim (s : String) : String :=
  ⟨(((s.data.dropWhile jsWhitespace).reverse.dropWhile jsWhitespace).reverse)⟩

/-- Embedding of the `Customer` constructor.  The ambient
`crypto.randomUUID()` result is passed as the `id` argument.  The body is
`if(!name || name.trim().length === 0) throw new Error("Name cannot be empty");`
(`!name` is true for a string exactly when it is `""`), then the fields are
assigned, `_lastOrderPrice` to `null`. -/
def mkCustomer (id name : String) : Except String Customer :=
  if name = "" ∨ (jsTrim name).length = 0 then .error "Name cannot be empty"
  else .ok ⟨id, name, none⟩

/-- Embedding of the `lastOrderPrice` setter:
`this._lastOrderPrice = value;` — the other fields (`readonly` in the
source) are untouched. -/
def Customer.setLastOrderPrice (self : Customer) (value : Money) : Customer :=
  ⟨self.id, self.name, some value⟩

/-- The argument of the `DateTime` constructor, `Date | string`.
A JS `Date` carries a time value that is either an instant (epoch
milliseconds) or `NaN` ("Invalid Date"), hence `Option Int`. -/
inductive DateValue where
  | fromDate (t : Option Int)
  | fromString (s : String)
  deriving DecidableEq, Repr

/-- The JS truthiness test `if (value)` applied to a `Date | string`
operand: every object is truthy; a string is truthy iff non-empty. -/
def DateValue.truthy : DateValue → Bool
  | .fromDate _ => true
  | .fromString s => s ≠ ""

/-- `new Date(value)` applied to the constructor argument: copying a
`Date` copies its (possibly `NaN`) time value; a string goes through the
ambient date parser `parse`. -/
def DateValue.parsed (parse : String → Option Int) : DateValue → Option Int
  | .fromDate t => t
  | .fromString s => parse s

/-- The template-literal rendering `${value}` in the error messages:
a string renders as itself, a `Date` through the ambient
`Date.prototype.toString`, passed as `rd`. -/
def DateValue.render (rd : Option Int → String) : DateValue → String
  | .fromDate t => rd t
  | .fromString s => s

/-- Embedding of `DateTime` (the DateTime value object source file):
readonly field `_date`, a valid `Date`, exposed by the `value` getter. -/
structure DateTime where
  date : Int
  deriving DecidableEq, Repr

/-- Embedding of the `DateTime` constructor.  `parse` is the ambient
string→instant parser, `rd` the ambient `Date` rendering, `now` the
wall-clock instant read at entry (`const now = new Date();`).  The body:
`if (value)` (JS truthiness), then parse, throw on `NaN`, throw if
`parsedDate > now`, else store; when the test fails, store `now`. -/
def mkDateTime (parse : String → Option Int) (rd : Option Int → String)
    (now : Int) (value : Option DateValue) : Except String DateTime :=
  match value with
  | some v =>
    if v.truthy then
      match v.parsed parse with
      | none => .error ("Invalid date format: " ++ v.render rd ++ ".")
      | some t =>
        if t > now then .error ("Date cannot be in the future: " ++ v.render rd ++ ".")
        else .ok ⟨t⟩
    else .ok ⟨now⟩
  | none => .ok ⟨now⟩

/-! Object-level view of the `Money` methods, for the immutability /
frame claim.  A store records every `Money` object allocated so far; a
reference is an index into it.  A method body reads the receiver's and the
argument's fields and never assigns a field (both are `readonly`); on
success it evaluates `new Money(...)`, which allocates a fresh object. -/

/-- The allocation store of `Money` objects. -/
abbrev MoneyStore := List Money

/-- Method-call embedding of `self.add(other)`: the functional body
`Money.add`, with the successful `new Money` allocation made explicit as
an extension of the store; the returned reference is the fresh index. -/
def Money.addCall (σ : MoneyStore) (self other : Money) :
    Except String (MoneyStore × Nat) :=
  match self.add other with
  | .error e => .error e
  | .ok m => .ok (σ ++ [m], σ.length)

/-- Method-call embedding of `self.multiply(factor)`, with the `new Money`
allocation made explicit as in `Money.addCall`. -/
def Money.multiplyCall (σ : MoneyStore) (self : Money) (factor : ℚ) :
    Except String (MoneyStore × Nat) :=
  match self.multiply factor with
  | .error e => .error e
  | .ok m => .ok (σ ++ [m], σ.length)

/-! Helper lemmas shared by the claim theorems. -/

/-- A string of length 0 is the empty string. -/
lemma string_eq_empty_of_length_eq_zero {s : String} (h : s.length = 0) : s = "" := by
  cases s with
  | mk data =>
    simp [String.length] at h
    simp [h]

/-- Trimming the empty string gives the empty string. -/
lemma jsTrim_empty : jsTrim "" = "" := rfl

/-- The error case of the `Customer` constructor. -/
lemma mkCustomer_error {name : String} (id : String) (h : jsTrim name = "") :
    mkCustomer id name = .error "Name cannot be empty" := by
  unfold mkCustomer
  rw [if_pos]
  exact Or.inr (by rw [h]; rfl)

/-- The success case of the `Customer` constructor: the name is stored
verbatim and `lastOrderPrice` starts out `null`. -/
lemma mkCustomer_ok {name : String} (id : String) (h : jsTrim name ≠ "") :
    mkCustomer id name = .ok ⟨id, name, none⟩ := by
  unfold mkCustomer
  rw [if_neg]
  rintro (rfl | hlen)
  · exact h jsTrim_empty
  · exact h (string_eq_empty_of_length_eq_zero hlen)

/-- A `Money` successfully returned by the constructor has a non-negative
amount. -/
lemma mkMoney_ok_nonneg {a : ℚ} {cur : Currency} {m : Money}
    (h : mkMoney a cur = .ok m) : 0 ≤ m.amount := by
  unfold mkMoney at h
  split at h
  · exact absurd h (by simp)
  · rename_i hneg
    cases h
    exact le_of_not_lt hneg

/-- A successful `Money.add` returns the summed amount with the left-hand
operand's currency. -/
lemma money_add_ok_eq {x y m : Money} (h : x.add y = .ok m) :
    m = ⟨x.amount + y.amount, x.currency⟩ := by
  unfold Money.add mkMoney at h
  split at h
  · exact absurd h (by simp)
  · split at h
    · exact absurd h (by simp)
    · cases h; rfl

/-- A successful `Money.multiply` returns the scaled amount with the
receiver's currency. -/
lemma money_multiply_ok_eq {x m : Money} {f : ℚ} (h : x.multiply f = .ok m) :
    m = ⟨x.amount * f, x.currency⟩ := by
  unfold Money.multiply mkMoney at h
  split at h
  · exact absurd h (by simp)
  · split at h
    · exact absurd h (by simp)
    · cases h; rfl

/-- C1: the claim requires `Currency` construction to fail at runtime for
any string that is not three uppercase ASCII letters.  The constructor
performs no runtime check at all: `mkCurrency` is total, stores any string
verbatim (so `Currency(c).code = c` holds for every string, not only valid
codes), and in particular accepts `"usd"`, which the spec's required
validation predicate rejects. -/
theorem currency_constructor_skips_validation :
    (∀ s : String, (mkCurrency s).code = s) ∧
    specValidCurrencyCode "usd" = false ∧
    mkCurrency "usd" = { code := "usd" } :=
  ⟨fun _ => rfl, by decide, rfl⟩

/-- C2: `Money.add` fails (with the currency-mismatch message) exactly when
the two currency codes differ; when they agree it returns a new `Money`
whose amount is the sum and whose currency is the left operand's. -/
theorem money_add_spec (x y : Money) (hx : 0 ≤ x.amount) (hy : 0 ≤ y.amount) :
    (x.currency.code ≠ y.currency.code →
      x.add y = .error ("Cannot add amounts with different currencies: "
        ++ x.currency.code ++ " and " ++ y.currency.code)) ∧
    (x.currency.code = y.currency.code →
      x.add y = .ok ⟨x.amount + y.amount, x.currency⟩) := by
  constructor
  · intro h
    unfold Money.add
    rw [if_pos h]
  · intro h
    have h1 : ¬ x.currency.code ≠ y.currency.code := not_not_intro h
    have h2 : ¬ (x.amount + y.amount < 0) := not_lt.mpr (add_nonneg hx hy)
    unfold Money.add mkMoney
    rw [if_neg h1, if_neg h2]

/-- C2 witness: concrete same-currency and mismatched-currency additions. -/
theorem money_add_spec_witness :
    Money.add ⟨3, mkCurrency "USD"⟩ ⟨4, mkCurrency "USD"⟩
      = .ok ⟨3 + 4, mkCurrency "USD"⟩ ∧
    Money.add ⟨3, mkCurrency "USD"⟩ ⟨4, mkCurrency "PEN"⟩
      = .error ("Cannot add amounts with different currencies: "
          ++ "USD" ++ " and " ++ "PEN") :=
  ⟨(money_add_spec ⟨3, mkCurrency "USD"⟩ ⟨4, mkCurrency "USD"⟩
      (by norm_num) (by norm_num)).2 rfl,
   (money_add_spec ⟨3, mkCurrency "USD"⟩ ⟨4, mkCurrency "PEN"⟩
      (by norm_num) (by norm_num)).1 (by decide)⟩

/-- C3: `Money.multiply` fails (with the negative-factor message) exactly
when the factor is negative; for a non-negative factor it returns a new
`Money` with the scaled amount and the same currency, and factor 0 is
legal, yielding a zero-amount `Money`. -/
theorem money_multiply_spec (x : Money) (f : ℚ) (hx : 0 ≤ x.amount) :
    (f < 0 → x.multiply f = .error ("Factor cannot be negative: " ++ toString f)) ∧
    (0 ≤ f → x.multiply f = .ok ⟨x.amount * f, x.currency⟩) ∧
    x.multiply 0 = .ok ⟨0, x.currency⟩ := by
  refine ⟨?_, ?_, ?_⟩
  · intro h
    unfold Money.multiply
    rw [if_pos h]
  · intro h
    have h2 : ¬ (x.amount * f < 0) := not_lt.mpr (mul_nonneg hx h)
    unfold Money.multiply mkMoney
    rw [if_neg (not_lt.mpr h), if_neg h2]
  · have h0 : ¬ ((0 : ℚ) < 0) := lt_irrefl 0
    have h1 : ¬ (x.amount * 0 < 0) := by rw [mul_zero]; exact lt_irrefl 0
    unfold Money.multiply mkMoney
    rw [if_neg h0, if_neg h1, mul_zero]

/-- C3 witness: concrete negative, positive and zero factors. -/
theorem money_multiply_spec_witness :
    Money.multiply ⟨3, mkCurrency "USD"⟩ (-2)
      = .error ("Factor cannot be negative: " ++ toString (-2 : ℚ)) ∧
    Money.multiply ⟨3, mkCurrency "USD"⟩ 2 = .ok ⟨3 * 2, mkCurrency "USD"⟩ ∧
    Money.multiply ⟨3, mkCurrency "USD"⟩ 0 = .ok ⟨0, mkCurrency "USD"⟩ :=
  ⟨(money_multiply_spec ⟨3, mkCurrency "USD"⟩ (-2) (by norm_num)).1 (by norm_num),
   (money_multiply_spec ⟨3, mkCurrency "USD"⟩ 2 (by norm_num)).2.1 (by norm_num),
   (money_multiply_spec ⟨3, mkCurrency "USD"⟩ 0 (by norm_num)).2.2⟩

/-- C4: the `Money` constructor fails with the "Amount cannot be negative"
message exactly when the amount is negative; otherwise it succeeds and
stores the amount unchanged. -/
theorem money_constructor_spec (a : ℚ) (cur : Currency) :
    (a < 0 → mkMoney a cur = .error ("Amount cannot be negative: " ++ toString a)) ∧
    (0 ≤ a → mkMoney a cur = .ok ⟨a, cur⟩) := by
  constructor
  · intro h
    unfold mkMoney
    rw [if_pos h]
  · intro h
    unfold mkMoney
    rw [if_neg (not_lt.mpr h)]

/-- C4 witness: concrete negative and non-negative amounts. -/
theorem money_constructor_spec_witness :
    mkMoney (-1) (mkCurrency "USD")
      = .error ("Amount cannot be negative: " ++ toString (-1 : ℚ)) ∧
    mkMoney 5 (mkCurrency "USD") = .ok ⟨5, mkCurrency "USD"⟩ :=
  ⟨(money_constructor_spec (-1) (mkCurrency "USD")).1 (by norm_num),
   (money_constructor_spec 5 (mkCurrency "USD")).2 (by norm_num)⟩

/-- C5 counterexample: the empty string is a provided construction value
that does not parse to a valid instant (under the exhibited parser nothing
parses, matching `new Date("")` being Invalid Date), yet the constructor
succeeds with the current instant instead of failing: `if (value)` treats
`""` as falsy and takes the defaulting branch. -/
theorem dateTime_empty_string_not_rejected :
    (fun _ : String => (none : Option Int)) "" = none ∧
    mkDateTime (fun _ => none) (fun _ => "") 0 (some (.fromString ""))
      = .ok ⟨0⟩ :=
  ⟨rfl, rfl⟩

/-- C5 (amended): for every provided construction value that is truthy
(any `Date`, or any non-empty string) and does not parse to a valid
instant, construction fails with the "Invalid date format" message; the
empty string is instead treated like an omitted value. -/
theorem dateTime_invalid_format_spec (parse : String → Option Int)
    (rd : Option Int → String) (now : Int) (v : DateValue)
    (htr : v.truthy = true) (hp : v.parsed parse = none) :
    mkDateTime parse rd now (some v)
      = .error ("Invalid date format: " ++ v.render rd ++ ".") := by
  simp [mkDateTime, htr, hp]

/-- C5 witness: a concrete unparseable non-empty string is rejected. -/
theorem dateTime_invalid_format_spec_witness :
    mkDateTime (fun _ => none) (fun _ => "") 0 (some (.fromString "x"))
      = .error ("Invalid date format: " ++ "x" ++ ".") :=
  dateTime_invalid_format_spec (fun _ => none) (fun _ => "") 0
    (.fromString "x") (by decide) rfl

/-- C6: a provided value parsing to an instant strictly later than the
wall-clock instant read on entry is rejected with the "Date cannot be in
the future" message (the hypothesis `parse "" = none` records that the
ambient JS parser never parses the empty string, `new Date("")` being
Invalid Date); with no value provided, construction stores the current
instant and never fails. -/
theorem dateTime_future_and_default_spec (parse : String → Option Int)
    (rd : Option Int → String) (now : Int) (v : DateValue) (t : Int)
    (hempty : parse "" = none) (hp : v.parsed parse = some t) (hfut : now < t) :
    mkDateTime parse rd now (some v)
      = .error ("Date cannot be in the future: " ++ v.render rd ++ ".") ∧
    mkDateTime parse rd now none = .ok ⟨now⟩ := by
  constructor
  · have htr : v.truthy = true := by
      cases v with
      | fromDate t' => rfl
      | fromString s =>
        by_cases hs : s = ""
        · subst hs
          rw [DateValue.parsed, hempty] at hp
          exact absurd hp (by simp)
        · simp [DateValue.truthy, hs]
    simp [mkDateTime, htr, hp, hfut]
  · rfl

/-- C6 witness: a concrete string parsing to instant 5 with the clock at 0
is rejected; omitting the value stores the clock reading. -/
theorem dateTime_future_and_default_spec_witness :
    mkDateTime (fun s => if s = "" then none else some 5) (fun _ => "") 0
      (some (.fromString "x"))
      = .error ("Date cannot be in the future: " ++ "x" ++ ".") ∧
    mkDateTime (fun s => if s = "" then none else some 5) (fun _ => "") 0 none
      = .ok ⟨0⟩ :=
  dateTime_future_and_default_spec (fun s => if s = "" then none else some 5)
    (fun _ => "") 0 (.fromString "x") 5 rfl rfl (by norm_num)

/-- C7: the `Customer` constructor fails with "Name cannot be empty"
exactly when the name trims to the empty string (so for `""` and for
all-whitespace names); on success the customer holds the given id and name
and `lastOrderPrice` is `null`. -/
theorem customer_constructor_spec (id name : String) :
    (jsTrim name = "" → mkCustomer id name = .error "Name cannot be empty") ∧
    (jsTrim name ≠ "" → mkCustomer id name = .ok ⟨id, name, none⟩) :=
  ⟨mkCustomer_error id, mkCustomer_ok id⟩

/-- C7 witness: `"  "` and `""` are rejected, `"Jane"` is accepted with a
`null` last-order price. -/
theorem customer_constructor_spec_witness :
    mkCustomer "uuid-1" "  " = .error "Name cannot be empty" ∧
    mkCustomer "uuid-1" "" = .error "Name cannot be empty" ∧
    mkCustomer "uuid-2" "Jane" = .ok ⟨"uuid-2", "Jane", none⟩ :=
  ⟨(customer_constructor_spec "uuid-1" "  ").1 (by decide),
   (customer_constructor_spec "uuid-1" "").1 (by decide),
   (customer_constructor_spec "uuid-2" "Jane").2 (by decide)⟩

/-- C8: every `Money` produced by the constructor, by `add`, or by
`multiply` has a non-negative amount (each operation funnels through the
constructor's check, which fails rather than clamps). -/
theorem money_amount_invariant (a : ℚ) (cur : Currency) (x y : Money)
    (f : ℚ) (m : Money) :
    (mkMoney a cur = .ok m → 0 ≤ m.amount) ∧
    (x.add y = .ok m → 0 ≤ m.amount) ∧
    (x.multiply f = .ok m → 0 ≤ m.amount) := by
  refine ⟨mkMoney_ok_nonneg, ?_, ?_⟩
  · intro h
    unfold Money.add at h
    split at h
    · exact absurd h (by simp)
    · exact mkMoney_ok_nonneg h
  · intro h
    unfold Money.multiply at h
    split at h
    · exact absurd h (by simp)
    · exact mkMoney_ok_nonneg h

/-- C8 witness: the invariant at a concretely constructed `Money`. -/
theorem money_amount_invariant_witness :
    0 ≤ (Money.mk 5 (mkCurrency "USD")).amount :=
  (money_amount_invariant 5 (mkCurrency "USD") ⟨1, mkCurrency "USD"⟩
    ⟨2, mkCurrency "USD"⟩ 1 ⟨5, mkCurrency "USD"⟩).1 (by decide)

/-- C9: at the object level, a successful `add` or `multiply` call
allocates its result at a fresh reference (the next free index), leaves
every previously allocated object — in particular the receiver and the
argument — exactly as it was, and the fresh object carries the computed
amount and the receiver's currency. -/
theorem money_methods_frame (σ σ' : MoneyStore) (x y : Money) (f : ℚ) (r : Nat) :
    (x.addCall σ y = .ok (σ', r) →
      r = σ.length ∧ (∀ i, i < σ.length → σ'[i]? = σ[i]?) ∧
      σ'[r]? = some ⟨x.amount + y.amount, x.currency⟩) ∧
    (x.multiplyCall σ f = .ok (σ', r) →
      r = σ.length ∧ (∀ i, i < σ.length → σ'[i]? = σ[i]?) ∧
      σ'[r]? = some ⟨x.amount * f, x.currency⟩) := by
  constructor
  · intro h
    unfold Money.addCall at h
    split at h
    · exact absurd h (by simp)
    · rename_i m hm
      simp only [Except.ok.injEq, Prod.mk.injEq] at h
      obtain ⟨h1, h2⟩ := h
      subst h1
      subst h2
      refine ⟨rfl, ?_, ?_⟩
      · intro i hi
        rw [List.getElem?_append, if_pos hi]
      · rw [List.getElem?_concat_length, money_add_ok_eq hm]
  · intro h
    unfold Money.multiplyCall at h
    split at h
    · exact absurd h (by simp)
    · rename_i m hm
      simp only [Except.ok.injEq, Prod.mk.injEq] at h
      obtain ⟨h1, h2⟩ := h
      subst h1
      subst h2
      refine ⟨rfl, ?_, ?_⟩
      · intro i hi
        rw [List.getElem?_append, if_pos hi]
      · rw [List.getElem?_concat_length, money_multiply_ok_eq hm]

/-- C9 witness: a concrete `add` call on a one-object store leaves the
existing object in place and allocates the sum at the fresh index 1. -/
theorem money_methods_frame_witness :
    (1 : Nat) = ([⟨3, mkCurrency "USD"⟩] : MoneyStore).length ∧
    ([⟨3, mkCurrency "USD"⟩, ⟨3 + 4, mkCurrency "USD"⟩] : MoneyStore)[0]?
      = ([⟨3, mkCurrency "USD"⟩] : MoneyStore)[0]? ∧
    ([⟨3, mkCurrency "USD"⟩, ⟨3 + 4, mkCurrency "USD"⟩] : MoneyStore)[1]?
      = some ⟨3 + 4, mkCurrency "USD"⟩ := by
  have h : Money.addCall [⟨3, mkCurrency "USD"⟩] ⟨3, mkCurrency "USD"⟩
      ⟨4, mkCurrency "USD"⟩
      = .ok ([⟨3, mkCurrency "USD"⟩, ⟨3 + 4, mkCurrency "USD"⟩], 1) := by
    have hadd : Money.add ⟨3, mkCurrency "USD"⟩ ⟨4, mkCurrency "USD"⟩
        = .ok ⟨3 + 4, mkCurrency "USD"⟩ := by
      unfold Money.add mkMoney
      rw [if_neg (not_not_intro rfl), if_neg (by norm_num)]
    unfold Money.addCall
    rw [hadd]
    rfl
  have H := (money_methods_frame [⟨3, mkCurrency "USD"⟩]
    [⟨3, mkCurrency "USD"⟩, ⟨3 + 4, mkCurrency "USD"⟩]
    ⟨3, mkCurrency "USD"⟩ ⟨4, mkCurrency "USD"⟩ 0 1).1 h
  exact ⟨H.1, H.2.1 0 (by norm_num), H.2.2⟩

/-- C10: the `Customer` constructor stores the name exactly as given,
surrounding whitespace included, whenever the trimmed name is non-empty;
and the `lastOrderPrice` setter changes only that field, leaving `id` and
`name` untouched. -/
theorem customer_name_verbatim_and_setter_frame (id name : String)
    (c : Customer) (v : Money) (h : jsTrim name ≠ "") :
    mkCustomer id name = .ok ⟨id, name, none⟩ ∧
    (c.setLastOrderPrice v).id = c.id ∧
    (c.setLastOrderPrice v).name = c.name ∧
    (c.setLastOrderPrice v).lastOrderPrice = some v :=
  ⟨mkCustomer_ok id h, rfl, rfl, rfl⟩

/-- C10 witness: `" Jane "` is stored with its surrounding whitespace, and
a concrete setter call only touches `lastOrderPrice`. -/
theorem customer_name_verbatim_and_setter_frame_witness :
    mkCustomer "uuid-3" " Jane " = .ok ⟨"uuid-3", " Jane ", none⟩ ∧
    (Customer.setLastOrderPrice ⟨"u", "X", none⟩ ⟨1, mkCurrency "USD"⟩).id = "u" ∧
    (Customer.setLastOrderPrice ⟨"u", "X", none⟩ ⟨1, mkCurrency "USD"⟩).name = "X" ∧
    (Customer.setLastOrderPrice ⟨"u", "X", none⟩
      ⟨1, mkCurrency "USD"⟩).lastOrderPrice = some ⟨1, mkCurrency "USD"⟩ :=
  customer_name_verbatim_and_setter_frame "uuid-3" " Jane "
    ⟨"u", "X", none⟩ ⟨1, mkCurrency "USD"⟩ (by decide)

end TSReview
